import Mathlib

/-!
Verification of the `object-space-parser` crate (`src/lib.rs`).

The crate deserializes a TOML document into `ObjectSpaceConfig` via serde
derive. The TOML text grammar itself is an external, trusted text-to-tree
parser, so the embedding works on the structured tree (`Toml` below) and
models the serde-derived decoding logic exactly:

* `ObjectSpaceConfig` — struct, field `camera`; *no* `deny_unknown_fields`
  attribute, hence serde's default of silently skipping unknown keys.
* `DetectorDescriptor` — struct, fields `detector`/`descriptor`, with
  `deny_unknown_fields`.
* `Detector` — internally tagged enum (`tag = "type"`), variants
  `checkerboard` and `charuco`, with `deny_unknown_fields`.
* `Descriptor` — internally tagged enum, single unit variant
  `detector_defined`.  The source writes `deny_unknown_fields` on it, but
  serde hands unit variants of internally tagged enums to
  `InternallyTaggedUnitVisitor`, which ignores all remaining entries, so the
  attribute has no effect here and extra descriptor fields are accepted.
* `read_object_space_config` — reads the file (I/O errors surface through
  the `Result`), parses it (parser errors surface through the `Result`),
  then decodes.

serde-derive struct decoding iterates the map entries in order: a known key
seen twice is a "duplicate field" error, a known key's value is decoded
eagerly (type mismatches are errors), an unknown key is an "unknown field"
error when `deny_unknown_fields` is present and is skipped otherwise; after
the iteration the fields are checked for presence in declaration order and
the first absent one is a "missing field" error.  Internally tagged enums
first locate the (string) `type` key and select the variant by exact string
match; a struct variant then decodes the remaining entries as its field set
(enforcing `deny_unknown_fields`), while a unit variant ignores whatever
entries remain.

Numeric scalars: TOML integers are `i64`, TOML floats are `f64`; serde's
`f64` visitor also accepts integer values (converting them), while the `i64`
visitor rejects floats.  The float carrier is modelled by `Rat` (the decode
stage copies the parser-produced value unchanged, so an exact carrier is
faithful).
-/

/-- A parsed TOML value tree, as produced by the external (trusted) parser.
Tables are association lists; the TOML parser rejects duplicate keys, but
the decoder below nevertheless mirrors serde's duplicate handling. -/
inductive Toml where
  | int : Int → Toml
  | float : Rat → Toml
  | string : String → Toml
  | bool : Bool → Toml
  | array : List Toml → Toml
  | table : List (String × Toml) → Toml

/-- Is this TOML value a string?  (The discriminator tag of an internally
tagged enum must be a string.) -/
def Toml.isString : Toml → Bool
  | .string _ => true
  | _ => false

/-- Schema-level (serde) deserialization errors, each naming the offending
field or tag, mirroring serde's error constructors. -/
inductive SchemaError where
  | missingField (name : String)
  | unknownField (name : String)
  | duplicateField (name : String)
  | unknownVariant (tag : String)
  | typeMismatch (field expected : String)
deriving DecidableEq, Repr

/-- The error channel of `read_object_space_config`.  In the Rust code the
`anyhow::Error` wraps either a `std::io::Error` (read failure), or a
`toml::de::Error` (parse / schema failure); the embedding keeps the three
phases distinct. -/
inductive LoadError where
  | resource (msg : String)
  | parseFailure (msg : String)
  | schema (e : SchemaError)
deriving DecidableEq, Repr

/-- `Detector` enum from `src/lib.rs` (internally tagged by `type`,
snake_case wire names `checkerboard` / `charuco`). -/
inductive Detector where
  | checkerboard (width height : Int) (edge_length : Rat) (variances : List Rat)
  | charuco (width height : Int) (edge_length marker_length : Rat) (variances : List Rat)
deriving DecidableEq, Repr

/-- `Descriptor` enum from `src/lib.rs` (internally tagged by `type`,
single wire variant `detector_defined`). -/
inductive Descriptor where
  | detectorDefined
deriving DecidableEq, Repr

/-- `DetectorDescriptor` struct from `src/lib.rs`. -/
structure DetectorDescriptor where
  detector : Detector
  descriptor : Descriptor
deriving DecidableEq, Repr

/-- `ObjectSpaceConfig` struct from `src/lib.rs`. -/
structure ObjectSpaceConfig where
  camera : DetectorDescriptor
deriving DecidableEq, Repr

/-- Decode an `i64` field: serde's `i64` visitor accepts only integer
values. -/
def decodeInt (field : String) : Toml → Except SchemaError Int
  | .int n => .ok n
  | _ => .error (.typeMismatch field "integer")

/-- Decode an `f64` field: serde's `f64` visitor accepts floats and also
integers (converted). -/
def decodeFloat (field : String) : Toml → Except SchemaError Rat
  | .float q => .ok q
  | .int n => .ok (n : Rat)
  | _ => .error (.typeMismatch field "float")

/-- Decode the elements of a `Vec<f64>` field. -/
def decodeFloatList (field : String) : List Toml → Except SchemaError (List Rat)
  | [] => .ok []
  | x :: xs =>
    match decodeFloat field x with
    | .error e => .error e
    | .ok q =>
      match decodeFloatList field xs with
      | .error e => .error e
      | .ok qs => .ok (q :: qs)

/-- Decode a `Vec<f64>` field: the value must be an array. -/
def decodeVariances (field : String) : Toml → Except SchemaError (List Rat)
  | .array xs => decodeFloatList field xs
  | _ => .error (.typeMismatch field "array")

/-- Accumulator for the `Checkerboard` variant's fields (serde keeps an
`Option` per declared field while iterating the map). -/
structure CheckerboardAcc where
  width : Option Int := none
  height : Option Int := none
  edge_length : Option Rat := none
  variances : Option (List Rat) := none

/-- Iterate the map entries for the `Checkerboard` variant
(`deny_unknown_fields`: an unknown key is an error). -/
def decodeCheckerboardFields :
    List (String × Toml) → CheckerboardAcc → Except SchemaError CheckerboardAcc
  | [], acc => .ok acc
  | (k, v) :: rest, acc =>
    if k = "width" then
      match acc.width with
      | some _ => .error (.duplicateField "width")
      | none =>
        match decodeInt "width" v with
        | .error e => .error e
        | .ok n => decodeCheckerboardFields rest { acc with width := some n }
    else if k = "height" then
      match acc.height with
      | some _ => .error (.duplicateField "height")
      | none =>
        match decodeInt "height" v with
        | .error e => .error e
        | .ok n => decodeCheckerboardFields rest { acc with height := some n }
    else if k = "edge_length" then
      match acc.edge_length with
      | some _ => .error (.duplicateField "edge_length")
      | none =>
        match decodeFloat "edge_length" v with
        | .error e => .error e
        | .ok q => decodeCheckerboardFields rest { acc with edge_length := some q }
    else if k = "variances" then
      match acc.variances with
      | some _ => .error (.duplicateField "variances")
      | none =>
        match decodeVariances "variances" v with
        | .error e => .error e
        | .ok qs => decodeCheckerboardFields rest { acc with variances := some qs }
    else
      .error (.unknownField k)

/-- Check field presence for `Checkerboard` in declaration order. -/
def finishCheckerboard (acc : CheckerboardAcc) : Except SchemaError Detector :=
  match acc.width with
  | none => .error (.missingField "width")
  | some w =>
    match acc.height with
    | none => .error (.missingField "height")
    | some h =>
      match acc.edge_length with
      | none => .error (.missingField "edge_length")
      | some e =>
        match acc.variances with
        | none => .error (.missingField "variances")
        | some vs => .ok (.checkerboard w h e vs)

/-- Decode the `Checkerboard` variant from the non-tag entries. -/
def decodeCheckerboard (t : List (String × Toml)) : Except SchemaError Detector :=
  match decodeCheckerboardFields t {} with
  | .error e => .error e
  | .ok acc => finishCheckerboard acc

/-- Accumulator for the `Charuco` variant's fields. -/
structure CharucoAcc where
  width : Option Int := none
  height : Option Int := none
  edge_length : Option Rat := none
  marker_length : Option Rat := none
  variances : Option (List Rat) := none

/-- Iterate the map entries for the `Charuco` variant
(`deny_unknown_fields`). -/
def decodeCharucoFields :
    List (String × Toml) → CharucoAcc → Except SchemaError CharucoAcc
  | [], acc => .ok acc
  | (k, v) :: rest, acc =>
    if k = "width" then
      match acc.width with
      | some _ => .error (.duplicateField "width")
      | none =>
        match decodeInt "width" v with
        | .error e => .error e
        | .ok n => decodeCharucoFields rest { acc with width := some n }
    else if k = "height" then
      match acc.height with
      | some _ => .error (.duplicateField "height")
      | none =>
        match decodeInt "height" v with
        | .error e => .error e
        | .ok n => decodeCharucoFields rest { acc with height := some n }
    else if k = "edge_length" then
      match acc.edge_length with
      | some _ => .error (.duplicateField "edge_length")
      | none =>
        match decodeFloat "edge_length" v with
        | .error e => .error e
        | .ok q => decodeCharucoFields rest { acc with edge_length := some q }
    else if k = "marker_length" then
      match acc.marker_length with
      | some _ => .error (.duplicateField "marker_length")
      | none =>
        match decodeFloat "marker_length" v with
        | .error e => .error e
        | .ok q => decodeCharucoFields rest { acc with marker_length := some q }
    else if k = "variances" then
      match acc.variances with
      | some _ => .error (.duplicateField "variances")
      | none =>
        match decodeVariances "variances" v with
        | .error e => .error e
        | .ok qs => decodeCharucoFields rest { acc with variances := some qs }
    else
      .error (.unknownField k)

/-- Check field presence for `Charuco` in declaration order. -/
def finishCharuco (acc : CharucoAcc) : Except SchemaError Detector :=
  match acc.width with
  | none => .error (.missingField "width")
  | some w =>
    match acc.height with
    | none => .error (.missingField "height")
    | some h =>
      match acc.edge_length with
      | none => .error (.missingField "edge_length")
      | some e =>
        match acc.marker_length with
        | none => .error (.missingField "marker_length")
        | some m =>
          match acc.variances with
          | none => .error (.missingField "variances")
          | some vs => .ok (.charuco w h e m vs)

/-- Decode the `Charuco` variant from the non-tag entries. -/
def decodeCharuco (t : List (String × Toml)) : Except SchemaError Detector :=
  match decodeCharucoFields t {} with
  | .error e => .error e
  | .ok acc => finishCharuco acc

/-- The entries handed to the selected variant: everything except the
`type` discriminator (serde's internally tagged representation). -/
def tagContent (t : List (String × Toml)) : List (String × Toml) :=
  t.filter fun kv => kv.1 != "type"

/-- Decode `Detector` from a table: locate the string `type` tag, select the
variant by exact (case-sensitive) match, decode its field set. -/
def decodeDetector (t : List (String × Toml)) : Except SchemaError Detector :=
  match List.lookup "type" t with
  | none => .error (.missingField "type")
  | some (.string tag) =>
    if tag = "checkerboard" then decodeCheckerboard (tagContent t)
    else if tag = "charuco" then decodeCharuco (tagContent t)
    else .error (.unknownVariant tag)
  | some _ => .error (.typeMismatch "type" "string")

/-- The `DetectorDefined` unit variant carries no fields.  serde routes unit
variants of internally tagged enums through `InternallyTaggedUnitVisitor`,
whose `visit_map` drains and ignores every remaining entry; the
`deny_unknown_fields` attribute written on `Descriptor` has no effect on
this path, so extra entries in the descriptor table are accepted. -/
def decodeDescriptorContent (_t : List (String × Toml)) : Except SchemaError Descriptor :=
  .ok .detectorDefined

/-- Decode `Descriptor` from a table. -/
def decodeDescriptor (t : List (String × Toml)) : Except SchemaError Descriptor :=
  match List.lookup "type" t with
  | none => .error (.missingField "type")
  | some (.string tag) =>
    if tag = "detector_defined" then decodeDescriptorContent (tagContent t)
    else .error (.unknownVariant tag)
  | some _ => .error (.typeMismatch "type" "string")

/-- The value of the `detector` field must itself be a table. -/
def decodeDetectorValue : Toml → Except SchemaError Detector
  | .table t => decodeDetector t
  | _ => .error (.typeMismatch "detector" "table")

/-- The value of the `descriptor` field must itself be a table. -/
def decodeDescriptorValue : Toml → Except SchemaError Descriptor
  | .table t => decodeDescriptor t
  | _ => .error (.typeMismatch "descriptor" "table")

/-- Accumulator for the `DetectorDescriptor` struct's fields. -/
structure DetDescAcc where
  detector : Option Detector := none
  descriptor : Option Descriptor := none

/-- Iterate the map entries of the camera table (`deny_unknown_fields`). -/
def decodeDetDescFields :
    List (String × Toml) → DetDescAcc → Except SchemaError DetDescAcc
  | [], acc => .ok acc
  | (k, v) :: rest, acc =>
    if k = "detector" then
      match acc.detector with
      | some _ => .error (.duplicateField "detector")
      | none =>
        match decodeDetectorValue v with
        | .error e => .error e
        | .ok d => decodeDetDescFields rest { acc with detector := some d }
    else if k = "descriptor" then
      match acc.descriptor with
      | some _ => .error (.duplicateField "descriptor")
      | none =>
        match decodeDescriptorValue v with
        | .error e => .error e
        | .ok d => decodeDetDescFields rest { acc with descriptor := some d }
    else
      .error (.unknownField k)

/-- Decode `DetectorDescriptor` from a table. -/
def decodeDetectorDescriptor (t : List (String × Toml)) :
    Except SchemaError DetectorDescriptor :=
  match decodeDetDescFields t {} with
  | .error e => .error e
  | .ok acc =>
    match acc.detector with
    | none => .error (.missingField "detector")
    | some det =>
      match acc.descriptor with
      | none => .error (.missingField "descriptor")
      | some desc => .ok ⟨det, desc⟩

/-- The value of the `camera` field must be a table. -/
def decodeCameraValue : Toml → Except SchemaError DetectorDescriptor
  | .table t => decodeDetectorDescriptor t
  | _ => .error (.typeMismatch "camera" "table")

/-- Accumulator for the top-level `ObjectSpaceConfig` struct. -/
structure ConfigAcc where
  camera : Option DetectorDescriptor := none

/-- Iterate the top-level entries.  `ObjectSpaceConfig` carries *no*
`deny_unknown_fields` attribute in `src/lib.rs`, so serde's default applies:
unknown top-level keys are skipped, not rejected. -/
def decodeConfigFields :
    List (String × Toml) → ConfigAcc → Except SchemaError ConfigAcc
  | [], acc => .ok acc
  | (k, v) :: rest, acc =>
    if k = "camera" then
      match acc.camera with
      | some _ => .error (.duplicateField "camera")
      | none =>
        match decodeCameraValue v with
        | .error e => .error e
        | .ok c => decodeConfigFields rest { acc with camera := some c }
    else
      decodeConfigFields rest acc

/-- Decode the whole document (the top-level TOML table) into
`ObjectSpaceConfig`. -/
def decodeConfig (t : List (String × Toml)) : Except SchemaError ObjectSpaceConfig :=
  match decodeConfigFields t {} with
  | .error e => .error e
  | .ok acc =>
    match acc.camera with
    | none => .error (.missingField "camera")
    | some c => .ok ⟨c⟩

/-- `read_object_space_config` from `src/lib.rs`:
`Ok(toml::from_str(&read_to_string(toml_path)?)?)`.  The file system is
modelled as a function from paths to contents-or-I/O-error, and the external
TOML parser as a function from text to tree-or-parse-error; both failures
propagate through the `Result` channel, each wrapped with its own phase. -/
def read_object_space_config (fs : String → Except String String)
    (parse : String → Except String (List (String × Toml)))
    (path : String) : Except LoadError ObjectSpaceConfig :=
  match fs path with
  | .error e => .error (.resource e)
  | .ok text =>
    match parse text with
    | .error e => .error (.parseFailure e)
    | .ok doc =>
      match decodeConfig doc with
      | .error e => .error (.schema e)
      | .ok c => .ok c

/-- Serialize `Detector` back to a table (serde `Serialize`: the tag first,
then the variant's fields in declaration order, snake_case names). -/
def encodeDetector : Detector → List (String × Toml)
  | .checkerboard w h e vs =>
    [("type", .string "checkerboard"), ("width", .int w), ("height", .int h),
     ("edge_length", .float e), ("variances", .array (vs.map .float))]
  | .charuco w h e m vs =>
    [("type", .string "charuco"), ("width", .int w), ("height", .int h),
     ("edge_length", .float e), ("marker_length", .float m),
     ("variances", .array (vs.map .float))]

/-- Serialize `Descriptor` back to a table. -/
def encodeDescriptor : Descriptor → List (String × Toml)
  | .detectorDefined => [("type", .string "detector_defined")]

/-- Serialize `DetectorDescriptor` back to a table. -/
def encodeDetectorDescriptor (dd : DetectorDescriptor) : List (String × Toml) :=
  [("detector", .table (encodeDetector dd.detector)),
   ("descriptor", .table (encodeDescriptor dd.descriptor))]

/-- Serialize `ObjectSpaceConfig` back to a document tree. -/
def encodeConfig (c : ObjectSpaceConfig) : List (String × Toml) :=
  [("camera", .table (encodeDetectorDescriptor c.camera))]

/-- Document builders used by the concrete scenarios of the spec. -/
def checkerboardTable (w h : Int) (e : Rat) (vs : List Rat) : List (String × Toml) :=
  [("type", .string "checkerboard"), ("width", .int w), ("height", .int h),
   ("edge_length", .float e), ("variances", .array (vs.map .float))]

/-- A ChArUco detector table with the given parameters. -/
def charucoTable (w h : Int) (e m : Rat) (vs : List Rat) : List (String × Toml) :=
  [("type", .string "charuco"), ("width", .int w), ("height", .int h),
   ("edge_length", .float e), ("marker_length", .float m),
   ("variances", .array (vs.map .float))]

/-- A camera table pairing the given detector table with the
`detector_defined` descriptor. -/
def cameraTable (det : List (String × Toml)) : List (String × Toml) :=
  [("detector", .table det),
   ("descriptor", .table [("type", .string "detector_defined")])]

/-- A full document with the given detector table under `camera`. -/
def configDoc (det : List (String × Toml)) : List (String × Toml) :=
  [("camera", .table (cameraTable det))]

/-- Decoding an array of float scalars recovers the float list exactly. -/
theorem decodeFloatList_map (field : String) (vs : List Rat) :
    decodeFloatList field (vs.map Toml.float) = .ok vs := by
  induction vs with
  | nil => rfl
  | cons x xs ih => simp [decodeFloatList, decodeFloat, ih]

/-- Claim C3: for every valid checkerboard configuration document (width>0,
height>0, edge_length>0, variances of length 3, descriptor
`detector_defined`), loading succeeds and each decoded field equals the
written input value exactly. -/
theorem valid_checkerboard_decodes_exactly (w h : Int) (e : Rat) (vs : List Rat)
    (hw : 0 < w) (hh : 0 < h) (he : 0 < e) (hlen : vs.length = 3) :
    decodeConfig (configDoc (checkerboardTable w h e vs)) =
      .ok ⟨⟨.checkerboard w h e vs, .detectorDefined⟩⟩ := by
  simp [decodeConfig, configDoc, cameraTable, checkerboardTable, decodeConfigFields,
    decodeCameraValue, decodeDetectorDescriptor, decodeDetDescFields,
    decodeDetectorValue, decodeDescriptorValue, decodeDetector, decodeDescriptor,
    tagContent, decodeCheckerboard, decodeCheckerboardFields, finishCheckerboard,
    decodeDescriptorContent, decodeInt, decodeFloat, decodeVariances,
    decodeFloatList_map, List.lookup, List.filter]

/-- Witness for C3: the spec's concrete scenario (width=8, height=6,
edge_length=0.025, variances=[1e-6,1e-6,1e-6]) loads, and the decoded width
is 8. -/
theorem valid_checkerboard_decodes_exactly_witness :
    0 < (8 : Int) ∧ 0 < (6 : Int) ∧ 0 < (0.025 : Rat) ∧
    ([(1e-6 : Rat), 1e-6, 1e-6].length = 3) ∧
    decodeConfig (configDoc (checkerboardTable 8 6 0.025 [1e-6, 1e-6, 1e-6])) =
      .ok ⟨⟨.checkerboard 8 6 0.025 [1e-6, 1e-6, 1e-6], .detectorDefined⟩⟩ :=
  ⟨by decide, by decide, by norm_num, by decide,
    valid_checkerboard_decodes_exactly 8 6 0.025 [1e-6, 1e-6, 1e-6]
      (by decide) (by decide) (by norm_num) (by decide)⟩

/-- Claim C1, counterexample: a document holding a valid `camera` table plus
the extra top-level key `extra` loads *successfully* — `ObjectSpaceConfig`
carries no `deny_unknown_fields` attribute, so serde's default silently
skips unknown top-level keys, contradicting the claim that such a document
fails with a SchemaError. -/
theorem top_level_extra_key_accepted :
    decodeConfig (("extra", Toml.int 1) ::
        configDoc (checkerboardTable 8 6 0.025 [1e-6, 1e-6, 1e-6])) =
      .ok ⟨⟨.checkerboard 8 6 0.025 [1e-6, 1e-6, 1e-6], .detectorDefined⟩⟩ := by rfl

/-- Claim C1, amended: unknown top-level keys are silently ignored — for any
key other than `camera`, prepending that key to a document leaves the
decoding result unchanged (so a document with a valid `camera` table plus
extra top-level keys still loads). -/
theorem top_level_unknown_keys_ignored (k : String) (v : Toml)
    (t : List (String × Toml)) (hk : k ≠ "camera") :
    decodeConfig ((k, v) :: t) = decodeConfig t := by
  simp [decodeConfig, decodeConfigFields, hk]

/-- Witness for C1's amended claim at the key `extra`. -/
theorem top_level_unknown_keys_ignored_witness :
    "extra" ≠ "camera" ∧
    decodeConfig (("extra", Toml.int 1) ::
        configDoc (checkerboardTable 8 6 0.025 [1e-6, 1e-6, 1e-6])) =
      decodeConfig (configDoc (checkerboardTable 8 6 0.025 [1e-6, 1e-6, 1e-6])) :=
  ⟨by decide, top_level_unknown_keys_ignored "extra" (Toml.int 1)
    (configDoc (checkerboardTable 8 6 0.025 [1e-6, 1e-6, 1e-6])) (by decide)⟩

/-- Claim C2, counterexample: a full document whose descriptor block holds
the extra field `foo = 1` loads *successfully* — serde's
`InternallyTaggedUnitVisitor` ignores entries remaining after the tag of an
internally tagged unit variant, so the `deny_unknown_fields` written on
`Descriptor` has no effect there, contradicting the claim that an extra
field anywhere (including the descriptor block) fails with a SchemaError. -/
theorem descriptor_extra_field_accepted :
    decodeConfig [("camera", Toml.table
        [("detector", .table (checkerboardTable 8 6 0.025 [1e-6, 1e-6, 1e-6])),
         ("descriptor", .table [("type", .string "detector_defined"),
           ("foo", .int 1)])])] =
      .ok ⟨⟨.checkerboard 8 6 0.025 [1e-6, 1e-6, 1e-6], .detectorDefined⟩⟩ := by rfl

/-- Claim C2, amended: a field name outside the selected variant's declared
set is rejected with a SchemaError naming the field when it occurs in the
detector block or in the camera table; an extra field in the descriptor
block is silently ignored (serde does not apply `deny_unknown_fields` to
unit variants of internally tagged enums). -/
theorem unknown_field_rejected_detector_and_camera (k : String) (v : Toml)
    (w h : Int) (e : Rat) (vs : List Rat)
    (hdet : k ∉ ["type", "width", "height", "edge_length", "variances"])
    (hcam : k ∉ ["detector", "descriptor"]) :
    decodeDetector (checkerboardTable w h e vs ++ [(k, v)]) =
      .error (.unknownField k)
  ∧ decodeDetectorDescriptor
      (cameraTable (checkerboardTable w h e vs) ++ [(k, v)]) =
      .error (.unknownField k)
  ∧ decodeDescriptor [("type", Toml.string "detector_defined"), (k, v)] =
      .ok .detectorDefined := by
  simp only [List.mem_cons, List.not_mem_nil, or_false, not_or] at hdet hcam
  obtain ⟨h1, h2, h3, h4, h5⟩ := hdet
  obtain ⟨h6, h7⟩ := hcam
  have h1b : (k != "type") = true := by simp [h1]
  refine ⟨?_, ?_, ?_⟩ <;>
    simp [decodeDetector, decodeDescriptor, decodeDetectorDescriptor, cameraTable,
      checkerboardTable, tagContent, decodeCheckerboard, decodeCheckerboardFields,
      decodeDetDescFields, decodeDetectorValue, decodeDescriptorValue,
      finishCheckerboard, decodeDescriptorContent, decodeInt, decodeFloat,
      decodeVariances, decodeFloatList_map, List.lookup, List.filter,
      h1, h2, h3, h4, h5, h6, h7, h1b]

/-- Witness for C2's amended claim: `foo = 1` is rejected in the detector
block and the camera table, naming `foo`, and accepted in the descriptor
block. -/
theorem unknown_field_rejected_detector_and_camera_witness :
    "foo" ∉ ["type", "width", "height", "edge_length", "variances"] ∧
    "foo" ∉ ["detector", "descriptor"] ∧
    (decodeDetector (checkerboardTable 8 6 0.025 [1e-6, 1e-6, 1e-6] ++
        [("foo", Toml.int 1)]) = .error (.unknownField "foo")
      ∧ decodeDetectorDescriptor
          (cameraTable (checkerboardTable 8 6 0.025 [1e-6, 1e-6, 1e-6]) ++
            [("foo", Toml.int 1)]) = .error (.unknownField "foo")
      ∧ decodeDescriptor [("type", Toml.string "detector_defined"),
          ("foo", Toml.int 1)] = .ok .detectorDefined) :=
  ⟨by decide, by decide,
    unknown_field_rejected_detector_and_camera "foo" (Toml.int 1) 8 6 0.025
      [1e-6, 1e-6, 1e-6] (by decide) (by decide)⟩

/-- Claim C4, counterexample: the spec's concrete scenario (ChArUco with
edge_length=0.04, marker_length=0.05) loads *successfully* — the code never
checks `marker_length < edge_length` (the spec itself labels that check a
"recommended extension beyond current behavior"), contradicting the claim
that loading fails with a SchemaError. -/
theorem charuco_marker_ge_edge_accepted :
    decodeConfig (configDoc (charucoTable 8 6 0.04 0.05 [1e-6, 1e-6, 1e-6])) =
      .ok ⟨⟨.charuco 8 6 0.04 0.05 [1e-6, 1e-6, 1e-6], .detectorDefined⟩⟩ := by rfl

/-- Claim C4, amended: a structurally well-formed ChArUco configuration
loads successfully even when marker_length ≥ edge_length — the semantic
constraint `marker_length < edge_length` is not enforced by the current
code. -/
theorem charuco_semantic_constraint_unchecked (w h : Int) (e m : Rat)
    (vs : List Rat) (hsem : e ≤ m) :
    decodeConfig (configDoc (charucoTable w h e m vs)) =
      .ok ⟨⟨.charuco w h e m vs, .detectorDefined⟩⟩ := by
  simp [decodeConfig, configDoc, cameraTable, charucoTable, decodeConfigFields,
    decodeCameraValue, decodeDetectorDescriptor, decodeDetDescFields,
    decodeDetectorValue, decodeDescriptorValue, decodeDetector, decodeDescriptor,
    tagContent, decodeCharuco, decodeCharucoFields, finishCharuco,
    decodeDescriptorContent, decodeInt, decodeFloat, decodeVariances,
    decodeFloatList_map, List.lookup, List.filter]

/-- Witness for C4's amended claim at edge_length=0.04, marker_length=0.05. -/
theorem charuco_semantic_constraint_unchecked_witness :
    (0.04 : Rat) ≤ 0.05 ∧
    decodeConfig (configDoc (charucoTable 8 6 0.04 0.05 [1e-6, 1e-6, 1e-6])) =
      .ok ⟨⟨.charuco 8 6 0.04 0.05 [1e-6, 1e-6, 1e-6], .detectorDefined⟩⟩ :=
  ⟨by norm_num,
    charuco_semantic_constraint_unchecked 8 6 0.04 0.05 [1e-6, 1e-6, 1e-6]
      (by norm_num)⟩

/-- Claim C5: the loader enforces only structural and type validity — a
structurally well-formed checkerboard configuration with non-positive width,
height, or edge_length, or a variances sequence whose length is not 3, still
loads successfully. -/
theorem structural_validation_only (w h : Int) (e : Rat) (vs : List Rat)
    (hbad : w ≤ 0 ∨ h ≤ 0 ∨ e ≤ 0 ∨ vs.length ≠ 3) :
    decodeConfig (configDoc (checkerboardTable w h e vs)) =
      .ok ⟨⟨.checkerboard w h e vs, .detectorDefined⟩⟩ := by
  simp [decodeConfig, configDoc, cameraTable, checkerboardTable, decodeConfigFields,
    decodeCameraValue, decodeDetectorDescriptor, decodeDetDescFields,
    decodeDetectorValue, decodeDescriptorValue, decodeDetector, decodeDescriptor,
    tagContent, decodeCheckerboard, decodeCheckerboardFields, finishCheckerboard,
    decodeDescriptorContent, decodeInt, decodeFloat, decodeVariances,
    decodeFloatList_map, List.lookup, List.filter]

/-- Witness for C5: width=0 with a length-1 variances list still loads. -/
theorem structural_validation_only_witness :
    ((0 : Int) ≤ 0 ∨ (6 : Int) ≤ 0 ∨ (0.025 : Rat) ≤ 0 ∨
      [(1e-6 : Rat)].length ≠ 3) ∧
    decodeConfig (configDoc (checkerboardTable 0 6 0.025 [1e-6])) =
      .ok ⟨⟨.checkerboard 0 6 0.025 [1e-6], .detectorDefined⟩⟩ :=
  ⟨Or.inl (by decide), structural_validation_only 0 6 0.025 [1e-6]
    (Or.inl (by decide))⟩

/-- Claim C6: a `type` tag that is absent, non-string, or not one of the
known variant names (matched case-sensitively) yields a SchemaError naming
the tag problem — missing discriminator, non-string discriminator, or
unknown variant — for both `Detector` and `Descriptor`, never a generic
parse failure. -/
theorem discriminator_tag_errors :
    (∀ t : List (String × Toml), List.lookup "type" t = none →
      decodeDetector t = .error (.missingField "type"))
  ∧ (∀ (t : List (String × Toml)) (v : Toml), List.lookup "type" t = some v →
      v.isString = false → decodeDetector t = .error (.typeMismatch "type" "string"))
  ∧ (∀ (t : List (String × Toml)) (s : String),
      List.lookup "type" t = some (.string s) →
      s ≠ "checkerboard" → s ≠ "charuco" →
      decodeDetector t = .error (.unknownVariant s))
  ∧ (∀ t : List (String × Toml), List.lookup "type" t = none →
      decodeDescriptor t = .error (.missingField "type"))
  ∧ (∀ (t : List (String × Toml)) (v : Toml), List.lookup "type" t = some v →
      v.isString = false → decodeDescriptor t = .error (.typeMismatch "type" "string"))
  ∧ (∀ (t : List (String × Toml)) (s : String),
      List.lookup "type" t = some (.string s) →
      s ≠ "detector_defined" → decodeDescriptor t = .error (.unknownVariant s)) := by
  refine ⟨?_, ?_, ?_, ?_, ?_, ?_⟩
  · intro t ht; simp [decodeDetector, ht]
  · intro t v ht hv; cases v <;> simp_all [decodeDetector, Toml.isString]
  · intro t s ht h1 h2; simp [decodeDetector, ht, h1, h2]
  · intro t ht; simp [decodeDescriptor, ht]
  · intro t v ht hv; cases v <;> simp_all [decodeDescriptor, Toml.isString]
  · intro t s ht h1; simp [decodeDescriptor, ht, h1]

/-- Witness for C6: concrete tables exercising each discriminator failure. -/
theorem discriminator_tag_errors_witness :
    decodeDetector [("width", Toml.int 8)] = .error (.missingField "type")
  ∧ decodeDetector [("type", Toml.int 3)] = .error (.typeMismatch "type" "string")
  ∧ decodeDetector [("type", Toml.string "qr_code")] = .error (.unknownVariant "qr_code")
  ∧ decodeDescriptor [] = .error (.missingField "type")
  ∧ decodeDescriptor [("type", Toml.bool true)] = .error (.typeMismatch "type" "string")
  ∧ decodeDescriptor [("type", Toml.string "world_frame")] =
      .error (.unknownVariant "world_frame") :=
  ⟨discriminator_tag_errors.1 _ rfl,
   discriminator_tag_errors.2.1 _ (Toml.int 3) rfl rfl,
   discriminator_tag_errors.2.2.1 _ "qr_code" rfl (by decide) (by decide),
   discriminator_tag_errors.2.2.2.1 _ rfl,
   discriminator_tag_errors.2.2.2.2.1 _ (Toml.bool true) rfl rfl,
   discriminator_tag_errors.2.2.2.2.2 _ "world_frame" rfl (by decide)⟩

/-- Claim C7: omitting any required field of the selected variant yields a
SchemaError naming that field — in particular omitting `edge_length` from an
otherwise-valid checkerboard block names `edge_length`; likewise for every
other checkerboard field and for charuco's `marker_length`. -/
theorem missing_required_field_named (w h : Int) (e : Rat) (vs : List Rat) :
    decodeDetector [("type", Toml.string "checkerboard"), ("height", .int h),
        ("edge_length", .float e), ("variances", .array (vs.map .float))] =
      .error (.missingField "width")
  ∧ decodeDetector [("type", Toml.string "checkerboard"), ("width", .int w),
        ("edge_length", .float e), ("variances", .array (vs.map .float))] =
      .error (.missingField "height")
  ∧ decodeDetector [("type", Toml.string "checkerboard"), ("width", .int w),
        ("height", .int h), ("variances", .array (vs.map .float))] =
      .error (.missingField "edge_length")
  ∧ decodeDetector [("type", Toml.string "checkerboard"), ("width", .int w),
        ("height", .int h), ("edge_length", .float e)] =
      .error (.missingField "variances")
  ∧ decodeDetector [("type", Toml.string "charuco"), ("width", .int w),
        ("height", .int h), ("edge_length", .float e),
        ("variances", .array (vs.map .float))] =
      .error (.missingField "marker_length") := by
  refine ⟨?_, ?_, ?_, ?_, ?_⟩ <;>
    simp [decodeDetector, tagContent, decodeCheckerboard, decodeCheckerboardFields,
      finishCheckerboard, decodeCharuco, decodeCharucoFields, finishCharuco,
      decodeInt, decodeFloat, decodeVariances, decodeFloatList_map,
      List.lookup, List.filter]

/-- Claim C8: when reading the path fails, loading returns a ResourceError
that is distinct (as a constructor of the error type) from parse and schema
errors, and the result does not depend on the parser — no parsing or schema
validation happens after the read failure. -/
theorem read_failure_is_resource_error (fs : String → Except String String)
    (p1 p2 : String → Except String (List (String × Toml))) (path msg : String)
    (hfs : fs path = .error msg) :
    read_object_space_config fs p1 path = .error (.resource msg)
  ∧ read_object_space_config fs p1 path = read_object_space_config fs p2 path
  ∧ (∀ m, LoadError.resource msg ≠ LoadError.parseFailure m)
  ∧ (∀ e, LoadError.resource msg ≠ LoadError.schema e) := by
  refine ⟨?_, ?_, ?_, ?_⟩
  · simp [read_object_space_config, hfs]
  · simp [read_object_space_config, hfs]
  · intro m hm; cases hm
  · intro e he; cases he

/-- Witness for C8 at a file system on which the path is unreadable. -/
theorem read_failure_is_resource_error_witness :
    ((fun _ : String => (Except.error "No such file or directory" :
        Except String String)) "missing.toml"
      = Except.error "No such file or directory") ∧
    (read_object_space_config (fun _ => .error "No such file or directory")
        (fun _ => .ok []) "missing.toml" =
          .error (.resource "No such file or directory")
    ∧ read_object_space_config (fun _ => .error "No such file or directory")
        (fun _ => .ok []) "missing.toml" =
      read_object_space_config (fun _ => .error "No such file or directory")
        (fun _ => .error "unused") "missing.toml"
    ∧ (∀ m, LoadError.resource "No such file or directory" ≠
        LoadError.parseFailure m)
    ∧ (∀ e, LoadError.resource "No such file or directory" ≠
        LoadError.schema e)) :=
  ⟨rfl, read_failure_is_resource_error
    (fun _ => .error "No such file or directory") (fun _ => .ok [])
    (fun _ => .error "unused") "missing.toml" "No such file or directory" rfl⟩

/-- Claim C9: serializing any in-memory `ObjectSpaceConfig` back to the
document tree and re-decoding it yields a value structurally equal to the
original on all fields. -/
theorem encode_decode_round_trip (c : ObjectSpaceConfig) :
    decodeConfig (encodeConfig c) = .ok c := by
  obtain ⟨⟨det, desc⟩⟩ := c
  cases det <;> cases desc <;>
    simp [decodeConfig, encodeConfig, encodeDetectorDescriptor, encodeDetector,
      encodeDescriptor, decodeConfigFields, decodeCameraValue,
      decodeDetectorDescriptor, decodeDetDescFields, decodeDetectorValue,
      decodeDescriptorValue, decodeDetector, decodeDescriptor, tagContent,
      decodeCheckerboard, decodeCheckerboardFields, finishCheckerboard,
      decodeCharuco, decodeCharucoFields, finishCharuco,
      decodeDescriptorContent, decodeInt, decodeFloat, decodeVariances,
      decodeFloatList_map, List.lookup, List.filter]

/-- Claim C10: the loader is total at the public interface — for every file
system, parser, and path, it returns either a configuration or an error
value; every I/O, syntax, and schema failure travels through the `Result`
channel (the embedding is a total function, mirroring the source, which
propagates all failures with `?` and contains no panicking construct). -/
theorem read_object_space_config_total (fs : String → Except String String)
    (parse : String → Except String (List (String × Toml))) (path : String) :
    (∃ c, read_object_space_config fs parse path = .ok c)
  ∨ (∃ e, read_object_space_config fs parse path = .error e) := by
  cases hr : read_object_space_config fs parse path with
  | ok c => exact Or.inl ⟨c, rfl⟩
  | error e => exact Or.inr ⟨e, rfl⟩
